import Mathlib

/-!
Verification development for the `masa-orca/community.zabbix` plugin modules under
`src/plugins/modules/`: `zabbix_maintenance.py`, `zabbix_mfa.py`, `zabbix_sla.py`
and `zabbix_dashboard.py`.

Each module is shallowly embedded as pure Lean functions.  Remote JSON-RPC reads
are supplied through an explicit environment record, and remote writes (create /
update / delete calls) are returned as an explicit list of write effects, so a
theorem can state "no write call is issued".  Python `fail_json` / uncaught
exceptions are modelled as a `failed` outcome, `exit_json(changed=b)` as
`exited b`.  Python failure-message strings are reproduced up to punctuation
(quotes are dropped).  Write calls themselves are modelled as always succeeding,
mirroring the modules' own `return 0, None, None` convention.
-/

namespace Zbx

/-- Outcome of one module invocation: `exited changed` models `exit_json(changed=...)`
(the accompanying `msg` string is immaterial and dropped), `failed msg` models
`fail_json(msg)` or an uncaught Python exception terminating the run. -/
inductive Outcome
  | exited (changed : Bool)
  | failed (msg : String)
deriving DecidableEq, Repr

/-- A naive calendar timestamp with minute precision, the shape produced by
`datetime.datetime.fromisoformat("YYYY-MM-DD HH:MM")` and by
`datetime.datetime.now().replace(second=0)` (sub-minute parts never reach the
comparisons or payloads used by the claims). -/
structure NaiveDT where
  year : Nat
  month : Nat
  day : Nat
  hour : Nat
  minute : Nat
deriving DecidableEq, Repr

/-- Days since 1970-01-01 of a proleptic-Gregorian civil date (Howard Hinnant's
`days_from_civil` algorithm, used here to give `time.mktime` an explicit
arithmetic meaning).  All intermediate quantities are nonnegative for the years
appearing in this development, so the integer-division convention is immaterial. -/
def daysFromCivil (y m d : Int) : Int :=
  let yy := if m ≤ 2 then y - 1 else y
  let era := (if 0 ≤ yy then yy else yy - 399) / 400
  let yoe := yy - era * 400
  let mp := (m + 9) % 12
  let doy := (153 * mp + 2) / 5 + d - 1
  let doe := yoe * 365 + yoe / 4 - yoe / 100 + doy
  era * 146097 + doe - 719468

/-- Seconds represented by a naive timestamp counted from the naive epoch
1970-01-01 00:00.  `(d2 - d1).total_seconds()` on two Python naive datetimes is
exactly `naiveSeconds d2 - naiveSeconds d1`. -/
def naiveSeconds (dt : NaiveDT) : Int :=
  daysFromCivil (dt.year : Int) (dt.month : Int) (dt.day : Int) * 86400
    + (dt.hour : Int) * 3600 + (dt.minute : Int) * 60

/-- `time.mktime(dt.timetuple())` for a local timestamp, modelled with a fixed
UTC offset `tz` (seconds east of UTC): the system's seconds-since-epoch encoding
of the local timestamp.  A constant offset means no daylight-saving transition
occurs between the timestamps under consideration. -/
def mktimeOf (dt : NaiveDT) (tz : Int) : Int :=
  naiveSeconds dt - tz

/-- Numeric value of an ASCII digit character, `none` otherwise. -/
def digit? (c : Char) : Option Nat :=
  if 48 ≤ c.toNat ∧ c.toNat ≤ 57 then some (c.toNat - 48) else none

/-- Two-digit decimal number from two characters. -/
def parse2 (a b : Char) : Option Nat := do
  let x ← digit? a
  let y ← digit? b
  pure (10 * x + y)

/-- Four-digit decimal number from four characters. -/
def parse4 (a b c d : Char) : Option Nat := do
  let x ← parse2 a b
  let y ← parse2 c d
  pure (100 * x + y)

/-- `datetime.datetime.fromisoformat` restricted to the `"YYYY-MM-DD HH:MM"`
form used by this module's `active_since` / `active_till` options (separator
characters checked by code point: 45 is the dash, 32 the space, 58 the colon).
Python accepts further ISO-8601 shapes; they are immaterial to the claims, and
an unparsable string raises `ValueError`, modelled as `none`. -/
def fromisoformat (s : String) : Option NaiveDT :=
  match s.data with
  | [a, b, c, d, s1, e, f, s2, g, h, s3, i, j, s4, k, l] =>
    if s1.toNat = 45 ∧ s2.toNat = 45 ∧ s3.toNat = 32 ∧ s4.toNat = 58 then do
      let y ← parse4 a b c d
      let mo ← parse2 e f
      let da ← parse2 g h
      let hh ← parse2 i j
      let mi ← parse2 k l
      if 1 ≤ mo ∧ mo ≤ 12 ∧ 1 ≤ da ∧ da ≤ 31 ∧ hh ≤ 23 ∧ mi ≤ 59 then
        pure (NaiveDT.mk y mo da hh mi)
      else none
    else none
  | _ => none

/-- Remote API version, truncated to its first two numeric components; the only
comparison the maintenance module performs is `LooseVersion(v) < LooseVersion("6.2")`,
which for Zabbix version strings is decided by (major, minor). -/
structure Version where
  major : Nat
  minor : Nat
deriving DecidableEq, Repr

/-- Lexicographic order on the two version components, the restriction of
`LooseVersion` comparison to this development. -/
def vlt (a b : Version) : Bool :=
  a.major < b.major ∨ (a.major = b.major ∧ a.minor < b.minor)

/-- The `LooseVersion("6.2")` threshold of the maintenance module. -/
def v62 : Version := Version.mk 6 2

/-- Insertion of an element into a sorted list, used by `pySorted` below. -/
def insertLe {α : Type} (le : α → α → Bool) (x : α) : List α → List α
  | [] => [x]
  | y :: ys => if le x y then x :: y :: ys else y :: insertLe le x ys

/-- Python's `sorted` with an explicit key order (insertion sort; the claims
never depend on the particular sorting algorithm, only on the function being
applied identically to both sides of each comparison). -/
def pySorted {α : Type} (le : α → α → Bool) : List α → List α
  | [] => []
  | x :: xs => insertLe le x (pySorted le xs)

/-- Lexicographic strict comparison of two character lists by code point, the
order Python uses on strings. -/
def charListLtb : List Char → List Char → Bool
  | [], [] => false
  | [], _ :: _ => true
  | _ :: _, [] => false
  | a :: as, b :: bs =>
    if a.toNat < b.toNat then true
    else if b.toNat < a.toNat then false
    else charListLtb as bs

/-- Non-strict lexicographic comparison of strings by code point. -/
def strLeb (a b : String) : Bool :=
  charListLtb a.data b.data || a == b

/-- `sorted` on a list of strings (lexicographic, as in Python). -/
def sortedStrings (l : List String) : List String :=
  pySorted strLeb l

/-- `list(set(l))` on a list of id strings.  CPython's set iteration order is
unspecified; the claims only ever use the result's membership, so one canonical
duplicate-free order (keep the last occurrence of each element) is chosen. -/
def pyListSet : List String → List String
  | [] => []
  | x :: xs => if x ∈ pyListSet xs then pyListSet xs else x :: pyListSet xs

end Zbx

namespace Zbx.Maint

/-- A tag record of the maintenance module (`tags` suboptions `tag`, `operator`,
`value`).  The remote API returns every field as a string; the module compares
tag records wholesale after sorting by the `tag` field, so all three fields are
modelled as strings. -/
structure MTag where
  tag : String
  operator : String
  value : String
deriving DecidableEq, Repr

/-- `sorted(ts, key=lambda k: k["tag"])` on a tag list. -/
def sortedTagsByName (ts : List MTag) : List MTag :=
  Zbx.pySorted (fun a b => Zbx.strLeb a.tag b.tag) ts

/-- The maintenance object assembled by `MaintenanceModule.get_maintenance` from
the remote answer: the raw object fields used by the module plus the derived
`groupids` / `hostids` lists it attaches (lines 412-429).  `tags` is `some`
exactly when the remote object carries a `tags` key. -/
structure Maintenance where
  maintenanceid : String
  groupids : List String
  hostids : List String
  maintenance_type : String
  active_since : String
  active_till : String
  description : String
  tags : Option (List MTag)
deriving DecidableEq, Repr

/-- The parameter dictionary passed to `zapi.maintenance.create` /
`zapi.maintenance.update` (lines 336-358 and 374-396).  Optional fields model
key presence in the Python dict: `groups` / `hosts` hold the ids wrapped as
`{"groupid": g}` / `{"hostid": h}` records, `groupids` / `hostids` the flat id
lists of the pre-6.2 shape.  The single one-time-only timeperiod entry is
flattened to its `start_date` and `period` strings (its `timeperiod_type` is the
constant `"0"`). -/
structure MaintPayload where
  maintenanceid : Option String
  groups : Option (List String)
  hosts : Option (List String)
  groupids : Option (List String)
  hostids : Option (List String)
  name : Option String
  maintenance_type : Nat
  active_since : String
  active_till : String
  description : String
  timeperiods_start_date : String
  timeperiods_period : String
  tags : Option (List MTag)
deriving DecidableEq, Repr

/-- Write calls the maintenance module can issue against the remote API. -/
inductive MWrite
  | create (payload : MaintPayload)
  | update (payload : MaintPayload)
  | delete (maintenanceid : String)
deriving DecidableEq, Repr

/-- `MaintenanceModule.create_maintenance` (lines 324-360): the parameter
dictionary it builds.  The `zapi.maintenance.create` call on that dictionary is
recorded by `main` below as a `MWrite.create` effect; the method itself then
returns `0, None, None` unconditionally. -/
def create_maintenance (ver : Zbx.Version) (group_ids host_ids : List String)
    (start_time : Int) (maintenance_type : Nat) (period : Int)
    (name desc : String) (tags : Option (List MTag)) : MaintPayload :=
  let end_time := start_time + period
  let base : MaintPayload :=
    { maintenanceid := none
      groups := some group_ids
      hosts := some host_ids
      groupids := none
      hostids := none
      name := some name
      maintenance_type := maintenance_type
      active_since := toString start_time
      active_till := toString end_time
      description := desc
      timeperiods_start_date := toString start_time
      timeperiods_period := toString period
      tags := tags }
  if Zbx.vlt ver Zbx.v62 then
    { base with groupids := some group_ids, hostids := some host_ids,
                groups := none, hosts := none }
  else base

/-- `MaintenanceModule.update_maintenance` (lines 362-398): the parameter
dictionary it builds, including the `maintenanceid` key; same version branching
as `create_maintenance`, no `name` key. -/
def update_maintenance (ver : Zbx.Version) (maintenance_id : String)
    (group_ids host_ids : List String) (start_time : Int) (maintenance_type : Nat)
    (period : Int) (desc : String) (tags : Option (List MTag)) : MaintPayload :=
  let end_time := start_time + period
  let base : MaintPayload :=
    { maintenanceid := some maintenance_id
      groups := some group_ids
      hosts := some host_ids
      groupids := none
      hostids := none
      name := none
      maintenance_type := maintenance_type
      active_since := toString start_time
      active_till := toString end_time
      description := desc
      timeperiods_start_date := toString start_time
      timeperiods_period := toString period
      tags := tags }
  if Zbx.vlt ver Zbx.v62 then
    { base with groupids := some group_ids, hostids := some host_ids,
                groups := none, hosts := none }
  else base

/-- `MaintenanceModule.check_maint_properties` (lines 465-492).  The Python
function returns `True` from one of its early returns or falls through
returning `None`; every caller uses the result as a boolean, so it is modelled
as `Bool`.  `str(maintenance_type)`, `str(int(start_time))` and
`str(int(start_time + period))` are the decimal renderings of the already
integral values. -/
def check_maint_properties (maintenance : Maintenance) (group_ids host_ids : List String)
    (maintenance_type : Nat) (start_time period : Int) (desc : String)
    (tags : Option (List MTag)) : Bool :=
  if Zbx.sortedStrings group_ids ≠ Zbx.sortedStrings maintenance.groupids then true
  else if Zbx.sortedStrings host_ids ≠ Zbx.sortedStrings maintenance.hostids then true
  else if toString maintenance_type ≠ maintenance.maintenance_type then true
  else if toString start_time ≠ maintenance.active_since then true
  else if toString (start_time + period) ≠ maintenance.active_till then true
  else if desc ≠ maintenance.description then true
  else
    match tags, maintenance.tags with
    | some ts, some mts => sortedTagsByName ts ≠ sortedTagsByName mts
    | _, _ => false

/-- Input parameters of the maintenance module after the framework's argument
parsing (`module.params`, lines 607-620).  `minutes` keeps its default 10 when
unset; `timeperiods` never reaches any code path of `main` and is omitted. -/
structure MaintParams where
  state : String
  host_names : Option (List String)
  host_groups : Option (List String)
  append : Bool
  minutes : Nat
  name : String
  desc : String
  collect_data : Bool
  visible_name : Bool
  active_since : String
  active_till : String
  tags : Option (List MTag)

/-- The remote world as seen through the module's read calls:
`hostgroup.get` / `host.get` name resolution (`none` models an empty result
list), the `get_maintenance` answer for the requested name, the current local
time (`datetime.datetime.now().replace(second=0)`), the cached API version and
the fixed local UTC offset interpreting `time.mktime`. -/
structure MaintEnv where
  apiVersion : Zbx.Version
  groupIdOf : String → Option String
  hostIdOf : String → String → Option String
  current : Option Maintenance
  nowLocal : Zbx.NaiveDT
  tz : Int

/-- `MaintenanceModule.get_group_ids` (lines 437-449): resolves each group name
in order, failing on the first name with an empty lookup result. -/
def get_group_ids (env : MaintEnv) : List String → Except String (List String)
  | [] => Except.ok []
  | g :: rest =>
    match env.groupIdOf g with
    | none => Except.error ("Group id for group " ++ g ++ " not found")
    | some gid =>
      match get_group_ids env rest with
      | Except.error e => Except.error e
      | Except.ok gids => Except.ok (gid :: gids)

/-- `MaintenanceModule.get_host_ids` (lines 451-463): same shape as
`get_group_ids`, filtering on the `zabbix_host` field chosen from
`visible_name`. -/
def get_host_ids (env : MaintEnv) (zabbix_host : String) : List String → Except String (List String)
  | [] => Except.ok []
  | h :: rest =>
    match env.hostIdOf zabbix_host h with
    | none => Except.error ("Host id for host " ++ h ++ " not found")
    | some hid =>
      match get_host_ids env zabbix_host rest with
      | Except.error e => Except.error e
      | Except.ok hids => Except.ok (hid :: hids)

/-- Python truthiness of an optional list parameter: `None` and `[]` are falsy. -/
def truthyList {α : Type} : Option (List α) → Bool
  | none => false
  | some l => ¬ l.isEmpty

/-- The `now` local variable of `main` (lines 644-648): parse `active_since`
when nonempty, else the current local time rounded down to the minute.  An
unparsable string raises `ValueError` out of `main`. -/
def mainNow (env : MaintEnv) (p : MaintParams) : Except String Zbx.NaiveDT :=
  if p.active_since ≠ "" then
    match Zbx.fromisoformat p.active_since with
    | some dt => Except.ok dt
    | none => Except.error "ValueError: invalid isoformat string"
  else Except.ok env.nowLocal

/-- The `period` local variable of `main` (lines 650-654): seconds between
`active_till` and `now` when `active_till` is set (the difference of two naive
datetimes), else `60 * minutes`. -/
def mainPeriod (p : MaintParams) (now : Zbx.NaiveDT) : Except String Int :=
  if p.active_till ≠ "" then
    match Zbx.fromisoformat p.active_till with
    | some dt2 => Except.ok (Zbx.naiveSeconds dt2 - Zbx.naiveSeconds now)
    | none => Except.error "ValueError: invalid isoformat string"
  else Except.ok (60 * (p.minutes : Int))

/-- The action `main` decides on before consulting `check_mode`. -/
inductive MaintAction
  | createAct (payload : MaintPayload)
  | updateAct (payload : MaintPayload)
  | deleteAct (maintenanceid : String)
  | noop
deriving DecidableEq, Repr

/-- The decision part of `main` (lines 605-746): everything except the
`check_mode` tests, which in the source sit at each write site and are factored
below into `emitMaint`.  Errors are the `fail_json` messages (and uncaught
`ValueError` from `fromisoformat`). -/
def mainDecision (env : MaintEnv) (p : MaintParams) : Except String MaintAction :=
  -- lines 622-629: maintenance_type from collect_data; tags forbidden without data collection
  match (if p.collect_data then Except.ok 0
         else match p.tags with
           | some _ => Except.error "Tags cannot be provided for maintenance without data collection."
           | none => Except.ok 1 : Except String Nat) with
  | Except.error e => Except.error e
  | Except.ok maintenance_type =>
    -- lines 631-634
    let zabbix_host := if p.visible_name then "name" else "host"
    if p.state = "present" then
      -- lines 639-642
      if ¬ truthyList p.host_names ∧ ¬ truthyList p.host_groups then
        Except.error "At least one host_name or host_group must be defined for each created maintenance."
      else
        match mainNow env p with
        | Except.error e => Except.error e
        | Except.ok now =>
          let start_time := Zbx.mktimeOf now env.tz
          match mainPeriod p now with
          | Except.error e => Except.error e
          | Except.ok period =>
            -- lines 656-661
            match (if truthyList p.host_groups then
                     match get_group_ids env (p.host_groups.getD []) with
                     | Except.error e => Except.error ("Failed to get group_ids: " ++ e)
                     | Except.ok g => Except.ok g
                   else Except.ok [] : Except String (List String)) with
            | Except.error e => Except.error e
            | Except.ok group_ids =>
              -- lines 663-668
              match (if truthyList p.host_names then
                       match get_host_ids env zabbix_host (p.host_names.getD []) with
                       | Except.error e => Except.error ("Failed to get host_ids: " ++ e)
                       | Except.ok h => Except.ok h
                     else Except.ok [] : Except String (List String)) with
              | Except.error e => Except.error e
              | Except.ok host_ids =>
                -- lines 670-726 (get_maintenance itself never reports a failure)
                match env.current with
                | some maintenance =>
                  let group_ids2 := if p.append then Zbx.pyListSet (group_ids ++ maintenance.groupids) else group_ids
                  let host_ids2 := if p.append then Zbx.pyListSet (host_ids ++ maintenance.hostids) else host_ids
                  if check_maint_properties maintenance group_ids2 host_ids2
                      maintenance_type start_time period p.desc p.tags then
                    Except.ok (MaintAction.updateAct
                      (update_maintenance env.apiVersion maintenance.maintenanceid
                        group_ids2 host_ids2 start_time maintenance_type period p.desc p.tags))
                  else Except.ok MaintAction.noop
                | none =>
                  Except.ok (MaintAction.createAct
                    (create_maintenance env.apiVersion group_ids host_ids
                      start_time maintenance_type period p.name p.desc p.tags))
    else if p.state = "absent" then
      -- lines 728-746
      match env.current with
      | some maintenance => Except.ok (MaintAction.deleteAct maintenance.maintenanceid)
      | none => Except.ok MaintAction.noop
    else Except.ok MaintAction.noop

/-- The per-branch `check_mode` handling of `main`: in check mode each write
branch reports `changed=True` without calling the API (lines 691-692, 710-711,
737-738); otherwise the write is issued and, the write methods returning
`rc = 0` unconditionally, `changed=True` is reported. -/
def emitMaint (checkMode : Bool) : MaintAction → Bool × List MWrite
  | MaintAction.noop => (false, [])
  | MaintAction.createAct pl => (true, if checkMode then [] else [MWrite.create pl])
  | MaintAction.updateAct pl => (true, if checkMode then [] else [MWrite.update pl])
  | MaintAction.deleteAct id => (true, if checkMode then [] else [MWrite.delete id])

/-- `main` of `zabbix_maintenance.py` (lines 495-748): outcome plus the list of
write calls issued. -/
def main (env : MaintEnv) (p : MaintParams) (checkMode : Bool) : Zbx.Outcome × List MWrite :=
  match mainDecision env p with
  | Except.error e => (Zbx.Outcome.failed e, [])
  | Except.ok act =>
    let r := emitMaint checkMode act
    (Zbx.Outcome.exited r.1, r.2)

end Zbx.Maint

namespace Zbx

/-- Modelled from the spec: `helper_to_numeric_value` is defined in
`plugins/module_utils/helpers.py`, which is not part of `src/`.  Spec section 6
describes it: enumeration names are translated to "the remote numeric-string
codes via a fixed ordered lookup table (position in a literal list = encoded
value; position 0 reserved for unset/none)".  A `none` entry models a Python
`None` placeholder in the literal list; a value absent from the table raises
`ValueError` at runtime, modelled as `none`. -/
def helper_to_numeric_value : List (Option String) → String → Option Nat
  | [], _ => none
  | none :: rest, v => (helper_to_numeric_value rest v).map (fun n => n + 1)
  | some s :: rest, v =>
    if s = v then some 0 else (helper_to_numeric_value rest v).map (fun n => n + 1)

/-- Modelled from the spec: `helper_compare_lists` is defined in
`plugins/module_utils/helpers.py`, not part of `src/`.  Spec sections 4 and 4.5
state that these list diffs are order-insensitive ("reordering for an
order-insensitive list comparison"); the helper fills its `diff` list argument,
which is empty exactly when the two lists agree up to reordering.  `true` here
models a nonempty diff list. -/
def helper_compare_lists_differ {α : Type} [DecidableEq α] (l1 l2 : List α) : Bool :=
  decide (¬ (l1 : Multiset α) = (l2 : Multiset α))

end Zbx

namespace Zbx.Mfa

/-- The MFA object returned by `MFA.get_mfa` for the totp variant: every field a
string, as delivered by the remote API. -/
structure MfaObject where
  mfaid : String
  name : String
  type_ : String
  hash_function : String
  code_length : String
deriving DecidableEq, Repr

/-- `module.params` of `zabbix_mfa.py` after argument parsing (lines 305-312). -/
structure MfaParams where
  name : String
  mfa_type : Option String
  hash_function : Option String
  code_length : Option Nat
  api_hostname : Option String
  clientid : Option String
  client_secret : Option String
deriving DecidableEq, Repr

/-- Write calls the MFA module could issue. -/
inductive MfaWrite
  | create
  | update
  | delete
deriving DecidableEq, Repr

/-- The `hash_function` encoding that `MFA._convert_to_parameter` (lines
189-197) is written to produce: position in the table
`[None, "sha-1", "sha-256", "sha-512"]`, rendered as a string by the caller.
As written the method cannot run at all: its body reads the bare name `module`,
which is a local variable of `main` and not a module-level binding, so every
call raises `NameError`. -/
def convert_hash_function (hf : String) : Option Nat :=
  Zbx.helper_to_numeric_value [none, some "sha-1", some "sha-256", some "sha-512"] hf

/-- The condition on lines 224-226 of `zabbix_mfa.py` that is written to decide
the `changed=False` early exit of `update_mfa`: variant totp with the encoded
`hash_function` and stringified `code_length` both equal to the current
object's fields. -/
def update_unchanged_condition (current : MfaObject) (p : MfaParams) : Bool :=
  p.mfa_type == some "totp"
    && ((convert_hash_function (p.hash_function.getD "")).map toString
          == some current.hash_function)
    && (p.code_length.map toString == some current.code_length)

/-- `MFA.update_mfa` (`zabbix_mfa.py` lines 220-238), faithful to the source.
Three slips make the written comparison unreachable: (1) the `def` header on
line 220 lacks its colon, so the file fails to parse and the module cannot even
be imported; (2) granting the parse, the first statement of the `try` block
calls `_convert_to_parameter` as a bare name, which Python resolves through the
local, enclosing, global and builtin scopes only — the method is reachable only
as `self._convert_to_parameter` — raising `NameError`; (3) the following line
calls `parameter.update("mfaid", ...)` with two positional arguments, a
`TypeError`.  The `except Exception` clause converts the `NameError` into
`fail_json("Failed to update MFA setting: ...")`.  The function therefore
always fails: it never reaches the `changed=False` comparison, the
`check_mode` test, or the `zapi.mfa.update` call. -/
def update_mfa (_current : MfaObject) (_p : MfaParams) (_checkMode : Bool) :
    Zbx.Outcome × List MfaWrite :=
  (Zbx.Outcome.failed
    "Failed to update MFA setting: NameError: name _convert_to_parameter is not defined", [])

end Zbx.Mfa

namespace Zbx.Sla

/-- Python error propagation inside the correlation methods: `failJson` models a
`fail_json` call (which exits via `SystemExit` and is not intercepted by
`except Exception`), `exn` an ordinary exception that the enclosing `try` of
`create_correlation` / `update_correlation` converts into its own
`fail_json`. -/
inductive PyErr
  | failJson (msg : String)
  | exn (msg : String)
deriving DecidableEq, Repr

/-- A condition record consumed by `Sla._convert_conditions_to_json`
(lines 273-324); each key the loop reads, `none` modelling Python `None`. -/
structure CorrCondition where
  type_ : String
  tag : Option String
  hostgroup : Option String
  oldtag : Option String
  newtag : Option String
  value : Option String
  formulaid : Option String
  operator : Option String
deriving DecidableEq, Repr

/-- The `filter` parameter consumed by `Sla._convert_filter_parameter_to_json`
(lines 327-352). -/
structure CorrFilterParam where
  evaltype : String
  formula : Option String
  conditions : List CorrCondition
deriving DecidableEq, Repr

/-- One converted condition dictionary; optional fields model key presence. -/
structure CondJson where
  type_ : String
  tag : Option String
  groupid : Option String
  oldtag : Option String
  newtag : Option String
  value : Option String
  formulaid : Option String
  operator : Option String
deriving DecidableEq, Repr

/-- The converted filter dictionary (its `formula` key is only set under the
custom-expression evaluation type). -/
structure FilterJson where
  evaltype : String
  conditions : List CondJson
  formula : Option String
deriving DecidableEq, Repr

/-- `condition_type_values` (lines 256-263). -/
def condition_type_values : List (Option String) :=
  [some "old_event_tag", some "new_event_tag", some "new_event_host_group",
   some "event_tag_pair", some "old_event_tag_value", some "new_event_tag_value"]

/-- `operator_values` (lines 265-270). -/
def operator_values : List (Option String) :=
  [some "equal", some "not_equal", some "like", some "not_like"]

/-- `evaltype_values` (lines 328-333). -/
def evaltype_values : List (Option String) :=
  [some "and_or", some "and", some "or", some "custom_expression"]

/-- `operation_type_values` (line 236). -/
def operation_type_values : List (Option String) :=
  [some "close_old_events", some "close_new_event"]

/-- `status_values` (lines 355 and 407). -/
def status_values : List (Option String) :=
  [some "enabled", some "disabled"]

/-- Python `str.isupper()`: at least one cased character and no lowercase one
(cased characters approximated by `Char.isAlpha`, adequate for the ASCII
formula ids at issue). -/
def pyIsUpper (s : String) : Bool :=
  s.data.any (fun c => c.isAlpha) && s.data.all (fun c => ¬ c.isLower)

/-- The remote world seen through the correlation methods' read calls:
`hostgroup.get {"filter": {"name": hg}}` returns a list of group ids. -/
structure CorrEnv where
  hostgroupGet : String → List String

/-- `Sla._get_groupid_from_name` (lines 249-253): a singleton lookup result
yields its group id; an empty or multi-element result is a fatal failure. -/
def get_groupid_from_name (env : CorrEnv) (hostgroup : String) : Except PyErr String :=
  match env.hostgroupGet hostgroup with
  | [g] => Except.ok g
  | _ => Except.error (PyErr.failJson ("Host group " ++ hostgroup ++ " cannot be found"))

/-- The condition-type lookup of the condition loop (lines 276-279). -/
def condition_ctype (c : CorrCondition) : Except PyErr Nat :=
  match Zbx.helper_to_numeric_value condition_type_values c.type_ with
  | some n => Except.ok n
  | none => Except.error (PyErr.exn "ValueError: condition type is not in list")

/-- The host-group resolution of the condition loop (lines 284-285): the
`groupid` key is set only when a `hostgroup` is given. -/
def condition_groupid (env : CorrEnv) (c : CorrCondition) : Except PyErr (Option String) :=
  match c.hostgroup with
  | none => Except.ok none
  | some hg => (get_groupid_from_name env hg).map some

/-- The formulaid rules of the condition loop (lines 296-311): under the
custom-expression evaluation type a formulaid is required and must be
uppercase; under any other evaluation type a supplied formulaid is ignored
with a warning and no key is set. -/
def condition_formulaid (evaltype : String) (c : CorrCondition) :
    Except PyErr (Option String) :=
  if evaltype = "custom_expression" then
    match c.formulaid with
    | some f =>
      if pyIsUpper f then Except.ok (some f)
      else Except.error (PyErr.failJson "A value of formulaid must be uppercase.")
    | none =>
      Except.error (PyErr.failJson
        "formulaid must be defined if evaltype is custom_expression.")
  else Except.ok none

/-- The operator rules of the condition loop (lines 313-322): for a
`new_event_host_group` condition the like-style operators are rejected with a
fatal validation error; otherwise the operator is encoded through
`operator_values` (an unknown name such as `contains` raises `ValueError`). -/
def condition_operator (c : CorrCondition) : Except PyErr (Option String) :=
  match c.operator with
  | none => Except.ok none
  | some op =>
    if c.type_ = "new_event_host_group" ∧ (op = "like" ∨ op = "not_like") then
      Except.error (PyErr.failJson
        "A value of operator must be equal or not_equal when condition type is new_event_host_group.")
    else
      match Zbx.helper_to_numeric_value operator_values op with
      | some n => Except.ok (some (toString n))
      | none => Except.error (PyErr.exn "ValueError: operator is not in list")

/-- One iteration of the condition loop of `Sla._convert_conditions_to_json`
(lines 273-324), in source order: condition-type lookup, `tag`, host-group
resolution, `oldtag`, `newtag`, `value`, the formulaid rules, then the operator
rules.  `module.warn` calls are side-effect free and dropped. -/
def convert_condition (env : CorrEnv) (evaltype : String) (c : CorrCondition) :
    Except PyErr CondJson := do
  let ctype ← condition_ctype c
  let groupid ← condition_groupid env c
  let formulaid ← condition_formulaid evaltype c
  let operatorJson ← condition_operator c
  Except.ok
    { type_ := toString ctype, tag := c.tag, groupid := groupid, oldtag := c.oldtag,
      newtag := c.newtag, value := c.value, formulaid := formulaid,
      operator := operatorJson }

/-- The condition loop of `Sla._convert_conditions_to_json`, over the whole
list (first error wins, as in Python). -/
def convert_conditions_list (env : CorrEnv) (evaltype : String) :
    List CorrCondition → Except PyErr (List CondJson)
  | [] => Except.ok []
  | c :: rest => do
    let cj ← convert_condition env evaltype c
    let rest2 ← convert_conditions_list env evaltype rest
    Except.ok (cj :: rest2)

/-- `Sla._convert_filter_parameter_to_json` (lines 327-352); the `formula` key
is set only under the custom-expression evaluation type (otherwise the value is
ignored with a warning). -/
def convert_filter_parameter_to_json (env : CorrEnv) (fp : CorrFilterParam) :
    Except PyErr FilterJson := do
  let et ← (match Zbx.helper_to_numeric_value evaltype_values fp.evaltype with
    | some n => Except.ok n
    | none => Except.error (PyErr.exn "ValueError: evaltype is not in list")
    : Except PyErr Nat)
  let conds ← convert_conditions_list env fp.evaltype fp.conditions
  let formula := match fp.formula with
    | some f => if fp.evaltype = "custom_expression" then some f else none
    | none => none
  Except.ok { evaltype := toString et, conditions := conds, formula := formula }

/-- `Sla._convert_operations_to_json` (lines 235-247), operations modelled by
their `type` strings. -/
def convert_operations_to_json : List String → Except PyErr (List String)
  | [] => Except.ok []
  | op :: rest => do
    let t ← (match Zbx.helper_to_numeric_value operation_type_values op with
      | some n => Except.ok n
      | none => Except.error (PyErr.exn "ValueError: operation type is not in list")
      : Except PyErr Nat)
    let rest2 ← convert_operations_to_json rest
    Except.ok (toString t :: rest2)

/-- The current correlation's `filter` object as returned by the remote API
(`eval_formula` and per-condition `formulaid` keys are remote-assigned). -/
structure CurrentFilter where
  evaltype : String
  eval_formula : String
  conditions : List CondJson
deriving DecidableEq, Repr

/-- The current correlation object as returned by the remote API, restricted to
the fields `update_correlation` reads. -/
structure CurrentCorrelation where
  correlationid : String
  description : String
  status : String
  operations : List String
  filter : CurrentFilter
deriving DecidableEq, Repr

/-- `Sla.check_filter_properties` (lines 385-404).  The loop pops the
`formulaid` key from every current condition when the current evaluation type
is not `"3"` (custom expression), modelled by clearing the optional field; the
source would raise `KeyError` on a condition lacking the key, which the
remote API never produces. -/
def check_filter_properties (current_filter : CurrentFilter) (future_filter : FilterJson) :
    Bool :=
  let c1 := current_filter.evaltype != future_filter.evaltype
  let c2 := match future_filter.formula with
    | some f => current_filter.eval_formula != f
    | none => false
  let currentConds := if current_filter.evaltype != "3" then
      current_filter.conditions.map (fun c => { c with formulaid := none })
    else current_filter.conditions
  c1 || c2 || Zbx.helper_compare_lists_differ currentConds future_filter.conditions

/-- The `correlation_json` dictionary built by `create_correlation`; the
`description` key is set only when the parameter is not `None`. -/
structure CorrelationJson where
  name : String
  description : Option String
  operations : List String
  filter : FilterJson
  status : Nat
deriving DecidableEq, Repr

/-- The `correlation_json` dictionary built by `update_correlation`; each key is
set only when the corresponding property differs (the `correlationid` key added
just before the write is carried by the write effect itself). -/
structure CorrUpdateJson where
  description : Option String
  operations : Option (List String)
  filter : Option FilterJson
  status : Option String
deriving DecidableEq, Repr

/-- `len(correlation_json.keys()) == 0` on the update dictionary. -/
def CorrUpdateJson.isEmptyJson (u : CorrUpdateJson) : Bool :=
  u.description == none && u.operations == none && u.filter == none && u.status == none

/-- Write calls the correlation paths of `zabbix_sla.py` could issue. -/
inductive CorrWrite
  | create (j : CorrelationJson)
  | update (correlationid : String) (j : CorrUpdateJson)
deriving DecidableEq, Repr

/-- The `correlation_json` dictionary assembled inside the `try` block of
`Sla.create_correlation` (lines 361-372), before the check-mode test. -/
def create_correlation_json (env : CorrEnv) (name : String) (description : Option String)
    (operations : List String) (filter_parameter : CorrFilterParam) (status_json : Nat) :
    Except PyErr CorrelationJson := do
  let ops ← convert_operations_to_json operations
  let filt ← convert_filter_parameter_to_json env filter_parameter
  Except.ok { name := name, description := description, operations := ops,
              filter := filt, status := status_json }

/-- `Sla.create_correlation` (lines 354-383).  The status lookup sits before the
`try` block, so an unknown status raises out of the module (a failed run);
ordinary exceptions inside the `try` become
`fail_json("Failed to create correlation: ...")`, while `fail_json` calls from
the conversion helpers exit via `SystemExit` and pass through `except
Exception` unchanged. -/
def create_correlation (env : CorrEnv) (name : String) (description : Option String)
    (operations : List String) (filter_parameter : CorrFilterParam) (status : String)
    (checkMode : Bool) : Zbx.Outcome × List CorrWrite :=
  match Zbx.helper_to_numeric_value status_values status with
  | none => (Zbx.Outcome.failed "ValueError: status is not in list", [])
  | some status_json =>
    match create_correlation_json env name description operations filter_parameter status_json with
    | Except.error (PyErr.failJson m) => (Zbx.Outcome.failed m, [])
    | Except.error (PyErr.exn e) =>
      (Zbx.Outcome.failed ("Failed to create correlation: " ++ e), [])
    | Except.ok cj =>
      if checkMode then (Zbx.Outcome.exited true, [])
      else (Zbx.Outcome.exited true, [CorrWrite.create cj])

/-- The difference dictionary assembled inside the `try` block of
`Sla.update_correlation` (lines 413-431), before the emptiness and check-mode
tests. -/
def update_correlation_json (env : CorrEnv) (current : CurrentCorrelation)
    (description : Option String) (operations : Option (List String))
    (filter_parameter : Option CorrFilterParam) (status_json : Nat) :
    Except PyErr CorrUpdateJson := do
  let descPart := match description with
    | some d => if d != current.description then some d else none
    | none => none
  let opsPart ← (match operations with
    | none => Except.ok none
    | some ops => do
      let fo ← convert_operations_to_json ops
      Except.ok (if Zbx.helper_compare_lists_differ current.operations fo then some fo else none)
    : Except PyErr (Option (List String)))
  let filtPart ← (match filter_parameter with
    | none => Except.ok none
    | some f => do
      let ff ← convert_filter_parameter_to_json env f
      Except.ok (if check_filter_properties current.filter ff then some ff else none)
    : Except PyErr (Option FilterJson))
  let statusPart := if toString status_json != current.status
    then some (toString status_json) else none
  Except.ok { description := descPart, operations := opsPart,
              filter := filtPart, status := statusPart }

/-- `Sla.update_correlation` (lines 406-446), same error discipline as
`create_correlation`: build the difference dictionary, exit `changed=False`
when it is empty, otherwise report (check mode) or issue (normal mode) the
update. -/
def update_correlation (env : CorrEnv) (current : CurrentCorrelation)
    (description : Option String) (operations : Option (List String))
    (filter_parameter : Option CorrFilterParam) (status : String) (checkMode : Bool) :
    Zbx.Outcome × List CorrWrite :=
  match Zbx.helper_to_numeric_value status_values status with
  | none => (Zbx.Outcome.failed "ValueError: status is not in list", [])
  | some status_json =>
    match update_correlation_json env current description operations filter_parameter status_json with
    | Except.error (PyErr.failJson m) => (Zbx.Outcome.failed m, [])
    | Except.error (PyErr.exn e) =>
      (Zbx.Outcome.failed ("Failed to update correlation: " ++ e), [])
    | Except.ok uj =>
      if uj.isEmptyJson then (Zbx.Outcome.exited false, [])
      else if checkMode then (Zbx.Outcome.exited true, [])
      else (Zbx.Outcome.exited true, [CorrWrite.update current.correlationid uj])

/-- An SLA object, restricted to the field `main` reads. -/
structure SlaObject where
  slaid : String
deriving DecidableEq, Repr

/-- Write calls the SLA paths of `zabbix_sla.py` can issue. -/
inductive SlaWrite
  | delete (slaid : String)
deriving DecidableEq, Repr

/-- The remote answer to the `correlation.get` lookup of `Sla.get_slas`
(an `error` models a raised transport/API exception). -/
structure SlaEnv where
  slasResult : Except String (List SlaObject)

/-- The module parameters `main` actually branches on. -/
structure SlaParams where
  state : String

/-- `Sla.get_slas` (lines 202-219): a transport failure becomes
`fail_json("Failed to get SLA: ...")`; two or more matches become the fatal
`fail_json("Too many SLAs are matched.")` (raised as `SystemExit`, hence not
caught by the surrounding `except Exception`). -/
def get_slas (env : SlaEnv) : Except String (List SlaObject) :=
  match env.slasResult with
  | Except.error e => Except.error ("Failed to get SLA: " ++ e)
  | Except.ok slas =>
    if 2 ≤ slas.length then Except.error "Too many SLAs are matched."
    else Except.ok slas

/-- `Sla.delete_sla` (lines 221-233): check mode reports the change without the
`zapi.sla.delete` call; otherwise the delete is issued and `changed=True`
reported. -/
def delete_sla (sla : SlaObject) (checkMode : Bool) : Zbx.Outcome × List SlaWrite :=
  (Zbx.Outcome.exited true, if checkMode then [] else [SlaWrite.delete sla.slaid])

/-- `main` of `zabbix_sla.py` (lines 449-561).  The `state == "present"` branch
(lines 557-561) reads the names `correlations`, `operations`,
`filter_parameter` and `correlation_class_obj`, none of which is defined
anywhere in the file, so reaching it raises `NameError` and the run terminates
before any call can be made. -/
def slaMain (env : SlaEnv) (p : SlaParams) (checkMode : Bool) :
    Zbx.Outcome × List SlaWrite :=
  match get_slas env with
  | Except.error m => (Zbx.Outcome.failed m, [])
  | Except.ok slas =>
    if p.state = "absent" then
      match slas with
      | [sla] => delete_sla sla checkMode
      | _ => (Zbx.Outcome.exited false, [])
    else
      (Zbx.Outcome.failed "NameError: name correlations is not defined", [])

end Zbx.Sla

namespace Zbx.Dash

/-- Write calls the dashboard module could issue (none ever is). -/
inductive DashWrite
  | create
  | update
  | delete
deriving DecidableEq, Repr

/-- Terminal result of `Dashboard.get_dashboard`: `fail_json` carrying either
the successfully fetched dashboard list or the wrapped exception text. -/
inductive DashOutcome
  | failJsonData (dashboards : List String)
  | failJsonMsg (msg : String)
deriving DecidableEq, Repr

/-- `Dashboard.get_dashboard` (`zabbix_dashboard.py` lines 260-273): the fetched
dashboard list (objects modelled opaquely as strings) is passed unconditionally
to `fail_json(msg=dashboard)`; the `except` branch also ends in `fail_json`.
Either way the call terminates the run fatally and issues no write. -/
def get_dashboard (fetch : Except String (List String)) : DashOutcome × List DashWrite :=
  match fetch with
  | Except.ok ds => (DashOutcome.failJsonData ds, [])
  | Except.error e =>
    (DashOutcome.failJsonMsg ("Failed to update global settings: " ++ e), [])

/-- `main` of `zabbix_dashboard.py` (lines 281-425): after building the argument
specification, every remaining statement is commented out, so an invocation
makes no API call of any kind — in particular, no write call. -/
def dashMain (_name : String) : List DashWrite := []

end Zbx.Dash

namespace Zbx

/-! Concrete instantiations used by the closed theorems and witnesses below. -/

/-- The `active_since` timestamp of the documented example invocation
(`"1979-09-19 09:00"`). -/
def dt1979_0900 : NaiveDT := NaiveDT.mk 1979 9 19 9 0

/-- The `active_till` timestamp of the documented example invocation
(`"1979-09-19 17:00"`). -/
def dt1979_1700 : NaiveDT := NaiveDT.mk 1979 9 19 17 0

/-- Parameters of the documented `TestDate` example invocation of the
maintenance module (EXAMPLES block, lines 294-310): explicit window bounds,
one host name, remaining options at their defaults. -/
def exExplicitWindowParams : Maint.MaintParams :=
  { state := "present"
    host_names := some ["host.example.org"]
    host_groups := none
    append := false
    minutes := 10
    name := "TestDate"
    desc := "Created by Ansible"
    collect_data := true
    visible_name := true
    active_since := "1979-09-19 09:00"
    active_till := "1979-09-19 17:00"
    tags := none }

/-- A remote world for the example invocation: API version 6.4, the host name
resolvable, no maintenance of that name yet; the local UTC offset is the
theorem's parameter. -/
def exExplicitWindowEnv (tz : Int) : Maint.MaintEnv :=
  { apiVersion := Version.mk 6 4
    groupIdOf := fun _ => none
    hostIdOf := fun field h =>
      if field = "name" ∧ h = "host.example.org" then some "10084" else none
    current := none
    nowLocal := NaiveDT.mk 2026 1 1 0 0
    tz := tz }

/-- The create payload the example invocation sends (used by the window
encoding theorem). -/
def exExplicitWindowPayload (tz : Int) : Maint.MaintPayload :=
  Maint.create_maintenance (Version.mk 6 4) [] ["10084"]
    (mktimeOf dt1979_0900 tz) 0 28800 "TestDate" "Created by Ansible" none

/-- An existing maintenance with host ids `{1, 2}` (and one host group),
target of the append scenario. -/
def exAppendCurrent : Maint.Maintenance :=
  { maintenanceid := "42"
    groupids := []
    hostids := ["1", "2"]
    maintenance_type := "0"
    active_since := "1000"
    active_till := "2000"
    description := "Created by Ansible"
    tags := none }

/-- Parameters asking for host ids `{2, 3}` (via names `web2`, `web3`) with
`append=true`. -/
def exAppendParams : Maint.MaintParams :=
  { state := "present"
    host_names := some ["web2", "web3"]
    host_groups := none
    append := true
    minutes := 10
    name := "maint1"
    desc := "Created by Ansible"
    collect_data := true
    visible_name := true
    active_since := "2020-01-02 03:04"
    active_till := "2020-01-02 04:04"
    tags := none }

/-- Remote world of the append scenario (offset 0 keeps the run closed under
evaluation). -/
def exAppendEnv : Maint.MaintEnv :=
  { apiVersion := Version.mk 6 4
    groupIdOf := fun _ => none
    hostIdOf := fun field h =>
      if field = "name" ∧ h = "web2" then some "2"
      else if field = "name" ∧ h = "web3" then some "3"
      else none
    current := some exAppendCurrent
    nowLocal := NaiveDT.mk 2026 1 1 0 0
    tz := 0 }

/-- The update payload the append scenario sends: host ids
`list(set(["2","3"] + ["1","2"]))` (here in `List.dedup` order). -/
def exAppendPayload : Maint.MaintPayload :=
  Maint.update_maintenance (Version.mk 6 4) "42" [] ["3", "1", "2"]
    (mktimeOf (NaiveDT.mk 2020 1 2 3 4) 0) 0 3600 "Created by Ansible" none

/-- The epoch encoding of the matching scenario's window start. -/
def exMatchStart : Int := mktimeOf (NaiveDT.mk 2020 1 2 3 4) 0

/-- An existing maintenance that matches the desired state of
`exMatchParams` in every compared property. -/
def exMatchCurrent : Maint.Maintenance :=
  { maintenanceid := "7"
    groupids := ["5"]
    hostids := ["9"]
    maintenance_type := "0"
    active_since := toString exMatchStart
    active_till := toString (exMatchStart + 3600)
    description := "Created by Ansible"
    tags := none }

/-- A desired state equal to `exMatchCurrent` in every compared property. -/
def exMatchParams : Maint.MaintParams :=
  { state := "present"
    host_names := some ["web9"]
    host_groups := some ["grp5"]
    append := false
    minutes := 10
    name := "maint2"
    desc := "Created by Ansible"
    collect_data := true
    visible_name := true
    active_since := "2020-01-02 03:04"
    active_till := "2020-01-02 04:04"
    tags := none }

/-- Remote world of the matching scenario. -/
def exMatchEnv : Maint.MaintEnv :=
  { apiVersion := Version.mk 6 4
    groupIdOf := fun g => if g = "grp5" then some "5" else none
    hostIdOf := fun field h => if field = "name" ∧ h = "web9" then some "9" else none
    current := some exMatchCurrent
    nowLocal := NaiveDT.mk 2026 1 1 0 0
    tz := 0 }

/-- A current totp MFA object. -/
def exMfaCurrent : Mfa.MfaObject :=
  { mfaid := "5", name := "Zabbix TOTP", type_ := "1",
    hash_function := "1", code_length := "6" }

/-- Desired MFA parameters matching `exMfaCurrent` field for field
(variant totp, `sha-1`, code length 6). -/
def exMfaParams : Mfa.MfaParams :=
  { name := "Zabbix TOTP", mfa_type := some "totp",
    hash_function := some "sha-1", code_length := some 6,
    api_hostname := none, clientid := none, client_secret := none }

/-- A second current totp MFA object (idempotence scenario). -/
def exMfaCurrent2 : Mfa.MfaObject :=
  { mfaid := "6", name := "TOTP 8", type_ := "1",
    hash_function := "2", code_length := "8" }

/-- Desired MFA parameters matching `exMfaCurrent2` field for field. -/
def exMfaParams2 : Mfa.MfaParams :=
  { name := "TOTP 8", mfa_type := some "totp",
    hash_function := some "sha-256", code_length := some 8,
    api_hostname := none, clientid := none, client_secret := none }

/-- An SLA lookup answer with two matches for the requested name. -/
def exTwoSlasEnv : Sla.SlaEnv :=
  { slasResult := Except.ok [Sla.SlaObject.mk "11", Sla.SlaObject.mk "12"] }

/-- A condition of type `new_event_host_group` with the like-style operator. -/
def exHostGroupLikeCond : Sla.CorrCondition :=
  { type_ := "new_event_host_group", tag := none, hostgroup := none,
    oldtag := none, newtag := none, value := none, formulaid := none,
    operator := some "like" }

/-- A filter parameter containing `exHostGroupLikeCond`. -/
def exHostGroupLikeFilter : Sla.CorrFilterParam :=
  { evaltype := "and_or", formula := none, conditions := [exHostGroupLikeCond] }

/-- A correlation environment with no resolvable host groups (never consulted
by the rejection scenario). -/
def exCorrEnv : Sla.CorrEnv :=
  { hostgroupGet := fun _ => [] }

end Zbx

namespace Zbx

/-! ## Shared lemmas -/

/-- Membership in `list(set(l))` is membership in `l`. -/
theorem mem_pyListSet {x : String} : ∀ {l : List String}, x ∈ pyListSet l ↔ x ∈ l
  | [] => Iff.rfl
  | y :: ys => by
    by_cases hy : y ∈ pyListSet ys
    · have hy2 : y ∈ ys := (mem_pyListSet).1 hy
      simp only [pyListSet, if_pos hy, List.mem_cons]
      rw [mem_pyListSet]
      constructor
      · exact Or.inr
      · rintro (rfl | hx)
        · exact hy2
        · exact hx
    · simp only [pyListSet, if_neg hy, List.mem_cons]
      rw [mem_pyListSet]

/-! ## Check-mode parity lemmas (shared by the dry-run theorem) -/

/-- In the maintenance module, check mode issues no write and reports the same
outcome a normal run computes. -/
theorem maint_check_parity (env : Maint.MaintEnv) (p : Maint.MaintParams) :
    (Maint.main env p true).2 = [] ∧
    (Maint.main env p true).1 = (Maint.main env p false).1 := by
  cases h : Maint.mainDecision env p with
  | error e => simp [Maint.main, h]
  | ok act => cases act <;> simp [Maint.main, Maint.emitMaint, h]

/-- In `Sla.update_correlation`, check mode issues no write and reports the
same outcome a normal run computes. -/
theorem upd_corr_check_parity (env : Sla.CorrEnv) (cur : Sla.CurrentCorrelation)
    (d : Option String) (ops : Option (List String)) (fp : Option Sla.CorrFilterParam)
    (st : String) :
    (Sla.update_correlation env cur d ops fp st true).2 = [] ∧
    (Sla.update_correlation env cur d ops fp st true).1
      = (Sla.update_correlation env cur d ops fp st false).1 := by
  cases h : Zbx.helper_to_numeric_value Sla.status_values st with
  | none => simp [Sla.update_correlation, h]
  | some sj =>
    cases hb : Sla.update_correlation_json env cur d ops fp sj with
    | error e => cases e <;> simp [Sla.update_correlation, h, hb]
    | ok uj =>
      by_cases he : uj.isEmptyJson = true <;>
        simp [Sla.update_correlation, h, hb, he]

/-- In `Sla.create_correlation`, check mode issues no write and reports the
same outcome a normal run computes. -/
theorem create_corr_check_parity (env : Sla.CorrEnv) (nm : String) (d : Option String)
    (ops : List String) (fp : Sla.CorrFilterParam) (st : String) :
    (Sla.create_correlation env nm d ops fp st true).2 = [] ∧
    (Sla.create_correlation env nm d ops fp st true).1
      = (Sla.create_correlation env nm d ops fp st false).1 := by
  cases h : Zbx.helper_to_numeric_value Sla.status_values st with
  | none => simp [Sla.create_correlation, h]
  | some sj =>
    cases hb : Sla.create_correlation_json env nm d ops fp sj with
    | error e => cases e <;> simp [Sla.create_correlation, h, hb]
    | ok cj => simp [Sla.create_correlation, h, hb]

/-- In `main` of the SLA module, check mode issues no write and reports the
same outcome a normal run computes. -/
theorem sla_main_check_parity (env : Sla.SlaEnv) (p : Sla.SlaParams) :
    (Sla.slaMain env p true).2 = [] ∧
    (Sla.slaMain env p true).1 = (Sla.slaMain env p false).1 := by
  cases h : Sla.get_slas env with
  | error m => simp [Sla.slaMain, h]
  | ok slas =>
    by_cases hs : p.state = "absent"
    · rcases slas with _ | ⟨a, _ | ⟨b, r⟩⟩ <;>
        simp [Sla.slaMain, Sla.delete_sla, h, hs]
    · simp [Sla.slaMain, h, hs]

end Zbx

namespace Zbx

/-- **C1.**  For every adaptor and every input, when check (dry-run) mode is
active no create, update or delete call is issued, and the reported outcome —
the changed flag, or the failure — is exactly the one a non-dry-run invocation
on the same current and desired state computes: `main` of the maintenance
module, `update_correlation`, `create_correlation` and `main` of the SLA
module, and `update_mfa` of the MFA module (which fails identically in both
modes, before its write). -/
theorem c1_dry_run_never_writes_and_reports_diff :
    (∀ (env : Maint.MaintEnv) (p : Maint.MaintParams),
      (Maint.main env p true).2 = [] ∧
      (Maint.main env p true).1 = (Maint.main env p false).1) ∧
    (∀ (env : Sla.CorrEnv) (cur : Sla.CurrentCorrelation) (d : Option String)
        (ops : Option (List String)) (fp : Option Sla.CorrFilterParam) (st : String),
      (Sla.update_correlation env cur d ops fp st true).2 = [] ∧
      (Sla.update_correlation env cur d ops fp st true).1
        = (Sla.update_correlation env cur d ops fp st false).1) ∧
    (∀ (env : Sla.CorrEnv) (nm : String) (d : Option String) (ops : List String)
        (fp : Sla.CorrFilterParam) (st : String),
      (Sla.create_correlation env nm d ops fp st true).2 = [] ∧
      (Sla.create_correlation env nm d ops fp st true).1
        = (Sla.create_correlation env nm d ops fp st false).1) ∧
    (∀ (env : Sla.SlaEnv) (p : Sla.SlaParams),
      (Sla.slaMain env p true).2 = [] ∧
      (Sla.slaMain env p true).1 = (Sla.slaMain env p false).1) ∧
    (∀ (cur : Mfa.MfaObject) (p : Mfa.MfaParams),
      (Mfa.update_mfa cur p true).2 = [] ∧
      (Mfa.update_mfa cur p true).1 = (Mfa.update_mfa cur p false).1) :=
  ⟨maint_check_parity, upd_corr_check_parity, create_corr_check_parity,
   sla_main_check_parity, fun _ _ => ⟨rfl, rfl⟩⟩

/-- **C3.**  `check_maint_properties` reports a difference exactly when one of
the seven compared properties differs: sorted group ids, sorted host ids, the
maintenance (collect-data) type, the window start, the window end, the
description, or the tag lists sorted by tag name — the last compared only when
desired tags are supplied and the current object carries a `tags` key. -/
theorem c3_check_maint_properties_iff (m : Maint.Maintenance) (g h : List String)
    (mt : Nat) (st per : Int) (d : String) (tags : Option (List Maint.MTag)) :
    Maint.check_maint_properties m g h mt st per d tags = true ↔
      (sortedStrings g ≠ sortedStrings m.groupids ∨
       sortedStrings h ≠ sortedStrings m.hostids ∨
       toString mt ≠ m.maintenance_type ∨
       toString st ≠ m.active_since ∨
       toString (st + per) ≠ m.active_till ∨
       d ≠ m.description ∨
       (∃ ts mts, tags = some ts ∧ m.tags = some mts ∧
          Maint.sortedTagsByName ts ≠ Maint.sortedTagsByName mts)) := by
  unfold Maint.check_maint_properties
  split_ifs with h1 h2 h3 h4 h5 h6
  · simp only [true_iff]; tauto
  · simp only [true_iff]; tauto
  · simp only [true_iff]; tauto
  · simp only [true_iff]; tauto
  · simp only [true_iff]; tauto
  · simp only [true_iff]; tauto
  · rcases tags with _ | ts <;> rcases htm : m.tags with _ | mts <;> simp_all

/-- **C6.**  On both create and update, an API version below 6.2 yields a
payload with flat `groupids` / `hostids` id lists and no `groups` / `hosts`
keys, while a version at or above 6.2 yields `groups` / `hosts` record lists
and no `groupids` / `hostids` keys. -/
theorem c6_version_selects_payload_shape (ver : Version) (gids hids : List String)
    (mid : String) (st : Int) (mt : Nat) (per : Int) (nm d : String)
    (tags : Option (List Maint.MTag)) :
    ((Maint.create_maintenance ver gids hids st mt per nm d tags).groupids
        = (if vlt ver v62 then some gids else none)) ∧
    ((Maint.create_maintenance ver gids hids st mt per nm d tags).hostids
        = (if vlt ver v62 then some hids else none)) ∧
    ((Maint.create_maintenance ver gids hids st mt per nm d tags).groups
        = (if vlt ver v62 then none else some gids)) ∧
    ((Maint.create_maintenance ver gids hids st mt per nm d tags).hosts
        = (if vlt ver v62 then none else some hids)) ∧
    ((Maint.update_maintenance ver mid gids hids st mt per d tags).groupids
        = (if vlt ver v62 then some gids else none)) ∧
    ((Maint.update_maintenance ver mid gids hids st mt per d tags).hostids
        = (if vlt ver v62 then some hids else none)) ∧
    ((Maint.update_maintenance ver mid gids hids st mt per d tags).groups
        = (if vlt ver v62 then none else some gids)) ∧
    ((Maint.update_maintenance ver mid gids hids st mt per d tags).hosts
        = (if vlt ver v62 then none else some hids)) := by
  cases hv : vlt ver v62 <;>
    simp [Maint.create_maintenance, Maint.update_maintenance, hv]

/-- **C10.**  The dashboard module's `main` issues no create, update or delete
call, and `get_dashboard` always terminates the run with a `fail_json` — also
when the remote `dashboard.get` call succeeds, because the fetched result is
passed unconditionally to the failure handler. -/
theorem c10_dashboard_always_fails :
    (∀ name, Dash.dashMain name = []) ∧
    (∀ fetch, (Dash.get_dashboard fetch).2 = []) ∧
    (∀ ds, (Dash.get_dashboard (Except.ok ds)).1 = Dash.DashOutcome.failJsonData ds) ∧
    (∀ e, (Dash.get_dashboard (Except.error e)).1
        = Dash.DashOutcome.failJsonMsg ("Failed to update global settings: " ++ e)) := by
  refine ⟨fun _ => rfl, fun fetch => ?_, fun _ => rfl, fun _ => rfl⟩
  cases fetch <;> rfl

end Zbx

namespace Zbx

/-- **C4.**  For the documented example invocation with
`active_since="1979-09-19 09:00"` and `active_till="1979-09-19 17:00"`, the
computed period is exactly 28800 seconds, and the create payload's
`active_since` / `active_till` fields are the integer seconds-since-epoch
encodings of the two local timestamps (for any fixed local UTC offset `tz`),
with `active_till = active_since + period`. -/
theorem c4_explicit_window_encoding (tz : Int) :
    fromisoformat "1979-09-19 09:00" = some dt1979_0900 ∧
    fromisoformat "1979-09-19 17:00" = some dt1979_1700 ∧
    Maint.mainPeriod exExplicitWindowParams dt1979_0900 = Except.ok 28800 ∧
    (Maint.main (exExplicitWindowEnv tz) exExplicitWindowParams false).2
      = [Maint.MWrite.create (exExplicitWindowPayload tz)] ∧
    (exExplicitWindowPayload tz).active_since = toString (mktimeOf dt1979_0900 tz) ∧
    (exExplicitWindowPayload tz).active_till
      = toString (mktimeOf dt1979_0900 tz + 28800) ∧
    mktimeOf dt1979_1700 tz = mktimeOf dt1979_0900 tz + 28800 ∧
    (exExplicitWindowPayload tz).active_till = toString (mktimeOf dt1979_1700 tz) := by
  have hdiff : naiveSeconds dt1979_1700 = naiveSeconds dt1979_0900 + 28800 := by decide
  have htill : mktimeOf dt1979_1700 tz = mktimeOf dt1979_0900 tz + 28800 := by
    simp only [mktimeOf]; omega
  have hv : vlt (Version.mk 6 4) v62 = false := by decide
  refine ⟨by decide, by decide, by rfl, rfl, rfl, ?_, htill, ?_⟩
  · simp [exExplicitWindowPayload, Maint.create_maintenance, hv]
  · rw [htill]
    simp [exExplicitWindowPayload, Maint.create_maintenance, hv]

end Zbx

namespace Zbx

/-- **C5.**  With `append=true` on an update, the id lists placed in the write
payload are `list(set(desired + current))`, whose membership is exactly the set
union of the desired and currently assigned ids; in the concrete scenario with
current host ids `{1, 2}` and desired host ids `{2, 3}`, the update payload's
host id set is `{1, 2, 3}`. -/
theorem c5_append_sends_union :
    (∀ (desired current : List String) (x : String),
        x ∈ pyListSet (desired ++ current) ↔ x ∈ desired ∨ x ∈ current) ∧
    (Maint.main exAppendEnv exAppendParams false).2
      = [Maint.MWrite.update exAppendPayload] ∧
    exAppendPayload.hosts = some ["3", "1", "2"] ∧
    (["3", "1", "2"] : List String).toFinset = ({"1", "2", "3"} : Finset String) ∧
    exAppendPayload.groups = some [] := by
  refine ⟨?_, by rfl, by rfl, by decide, by rfl⟩
  intro desired current x
  rw [mem_pyListSet, List.mem_append]

end Zbx

namespace Zbx

/-- **C2** (the idempotence claim as stated fails on the code; the maintenance
half holds, the MFA half does not).  On the concrete matching maintenance
scenario, a (repeated) invocation reports `changed=false` and issues no write,
in check mode and normal mode alike.  For the MFA module, the matching totp
scenario satisfies the comparison written on lines 224-226 of `zabbix_mfa.py`,
but `update_mfa` as written always fails before reaching that comparison, so
it reports a failure instead of `changed=false`. -/
theorem c2_matching_state_idempotence :
    (∀ cm : Bool, Maint.main exMatchEnv exMatchParams cm = (Outcome.exited false, [])) ∧
    Mfa.update_unchanged_condition exMfaCurrent2 exMfaParams2 = true ∧
    (∀ cm : Bool,
      Mfa.update_mfa exMfaCurrent2 exMfaParams2 cm
        = (Outcome.failed
            "Failed to update MFA setting: NameError: name _convert_to_parameter is not defined",
           []) ∧
      (Mfa.update_mfa exMfaCurrent2 exMfaParams2 cm).1 ≠ Outcome.exited false) := by
  refine ⟨fun cm => ?_, by decide, fun cm => ⟨rfl, by simp [Mfa.update_mfa]⟩⟩
  cases cm <;> rfl

/-- **C7** (the claim as stated fails on the code: `update_mfa` is broken).
The comparison written on lines 224-226 holds at the matching totp input — the
unchanged-condition is true — but `update_mfa` always fails with the
`NameError`-derived `fail_json` before reaching it, for the totp and the
duo_universal_prompt variant alike: neither `changed=false` (matching totp)
nor `changed=true` (duo) is ever reported, and no update call is ever
issued. -/
theorem c7_update_mfa_comparison_unreachable :
    Mfa.update_unchanged_condition exMfaCurrent exMfaParams = true ∧
    (∀ (cur : Mfa.MfaObject) (p : Mfa.MfaParams) (cm : Bool),
      Mfa.update_mfa cur p cm
        = (Outcome.failed
            "Failed to update MFA setting: NameError: name _convert_to_parameter is not defined",
           [])) ∧
    (∀ (cur : Mfa.MfaObject) (p : Mfa.MfaParams) (cm : Bool),
      (Mfa.update_mfa cur p cm).1 ≠ Outcome.exited false ∧
      (Mfa.update_mfa cur p cm).1 ≠ Outcome.exited true) := by
  refine ⟨by decide, fun _ _ _ => rfl, fun _ _ _ => ⟨?_, ?_⟩⟩ <;> simp [Mfa.update_mfa]

/-- **C8.**  When the SLA lookup-by-name returns two or more matching objects,
the invocation fails fatally with `Too many SLAs are matched.` and issues no
write call, whatever the requested state or mode. -/
theorem c8_duplicate_sla_names_fail_before_write (env : Sla.SlaEnv) (p : Sla.SlaParams)
    (cm : Bool) (slas : List Sla.SlaObject) (hres : env.slasResult = Except.ok slas)
    (hlen : 2 ≤ slas.length) :
    Sla.slaMain env p cm = (Outcome.failed "Too many SLAs are matched.", []) := by
  unfold Sla.slaMain Sla.get_slas
  rw [hres]
  simp [hlen]

/-- Closed instance of the duplicate-name theorem: a lookup answering two SLA
objects makes the run fail before any write. -/
theorem c8_duplicate_sla_names_fail_before_write_witness :
    exTwoSlasEnv.slasResult
      = Except.ok [Sla.SlaObject.mk "11", Sla.SlaObject.mk "12"] ∧
    2 ≤ ([Sla.SlaObject.mk "11", Sla.SlaObject.mk "12"] : List Sla.SlaObject).length ∧
    Sla.slaMain exTwoSlasEnv (Sla.SlaParams.mk "present") false
      = (Outcome.failed "Too many SLAs are matched.", []) :=
  ⟨rfl, by decide,
   c8_duplicate_sla_names_fail_before_write exTwoSlasEnv (Sla.SlaParams.mk "present")
     false [Sla.SlaObject.mk "11", Sla.SlaObject.mk "12"] rfl (by decide)⟩

/-! ## Error-propagation lemmas for the correlation condition rules -/

/-- A `new_event_host_group` condition with a like-style (or `contains`)
operator makes the operator step fail. -/
theorem condition_operator_rejects (c : Sla.CorrCondition)
    (htype : c.type_ = "new_event_host_group")
    (hop : c.operator = some "like" ∨ c.operator = some "not_like" ∨
           c.operator = some "contains") :
    ∃ e, Sla.condition_operator c = Except.error e := by
  have hcontains : Zbx.helper_to_numeric_value Sla.operator_values "contains" = none := by
    decide
  rcases hop with h | h | h <;>
    simp [Sla.condition_operator, h, htype, hcontains]

/-- If the operator step of a condition fails, converting that condition
fails. -/
theorem convert_condition_error_of_operator (env : Sla.CorrEnv) (et : String)
    (c : Sla.CorrCondition) (h : ∃ e, Sla.condition_operator c = Except.error e) :
    ∃ e, Sla.convert_condition env et c = Except.error e := by
  obtain ⟨e, he⟩ := h
  cases hc : Sla.condition_ctype c with
  | error e2 => exact ⟨e2, by simp [Sla.convert_condition, bind, Except.bind, hc]⟩
  | ok n =>
    cases hg : Sla.condition_groupid env c with
    | error e2 =>
      exact ⟨e2, by simp [Sla.convert_condition, bind, Except.bind, hc, hg]⟩
    | ok g =>
      cases hf : Sla.condition_formulaid et c with
      | error e2 =>
        exact ⟨e2, by simp [Sla.convert_condition, bind, Except.bind, hc, hg, hf]⟩
      | ok f =>
        exact ⟨e, by simp [Sla.convert_condition, bind, Except.bind, hc, hg, hf, he]⟩

/-- If one condition of the list always fails to convert, the whole condition
loop fails. -/
theorem convert_conditions_list_error (env : Sla.CorrEnv) (et : String)
    (c : Sla.CorrCondition) (herr : ∃ e, Sla.convert_condition env et c = Except.error e) :
    ∀ (conds : List Sla.CorrCondition), c ∈ conds →
      ∃ e, Sla.convert_conditions_list env et conds = Except.error e := by
  intro conds
  induction conds with
  | nil => intro hmem; cases hmem
  | cons hd tl ih =>
    intro hmem
    rcases List.mem_cons.mp hmem with rfl | hmem2
    · obtain ⟨e, he⟩ := herr
      exact ⟨e, by simp [Sla.convert_conditions_list, bind, Except.bind, he]⟩
    · cases hhd : Sla.convert_condition env et hd with
      | error e2 =>
        exact ⟨e2, by simp [Sla.convert_conditions_list, bind, Except.bind, hhd]⟩
      | ok cj =>
        obtain ⟨e, he⟩ := ih hmem2
        exact ⟨e, by simp [Sla.convert_conditions_list, bind, Except.bind, hhd, he]⟩

/-- A failing condition loop makes the filter conversion fail. -/
theorem convert_filter_error (env : Sla.CorrEnv) (fp : Sla.CorrFilterParam)
    (h : ∃ e, Sla.convert_conditions_list env fp.evaltype fp.conditions
          = Except.error e) :
    ∃ e, Sla.convert_filter_parameter_to_json env fp = Except.error e := by
  obtain ⟨e, he⟩ := h
  cases het : Zbx.helper_to_numeric_value Sla.evaltype_values fp.evaltype with
  | none =>
    exact ⟨Sla.PyErr.exn "ValueError: evaltype is not in list",
      by simp [Sla.convert_filter_parameter_to_json, bind, Except.bind, het]⟩
  | some n =>
    exact ⟨e, by simp [Sla.convert_filter_parameter_to_json, bind, Except.bind, het, he]⟩

/-- A failing filter conversion makes `create_correlation` fail fatally with no
write issued. -/
theorem create_correlation_fails_of_filter_error (env : Sla.CorrEnv) (nm : String)
    (d : Option String) (ops : List String) (fp : Sla.CorrFilterParam) (st : String)
    (cm : Bool)
    (h : ∃ e, Sla.convert_filter_parameter_to_json env fp = Except.error e) :
    ∃ m, Sla.create_correlation env nm d ops fp st cm = (Outcome.failed m, []) := by
  cases hst : Zbx.helper_to_numeric_value Sla.status_values st with
  | none =>
    exact ⟨"ValueError: status is not in list", by simp [Sla.create_correlation, hst]⟩
  | some sj =>
    cases hops : Sla.convert_operations_to_json ops with
    | error e2 =>
      cases e2 with
      | failJson m2 =>
        exact ⟨m2, by simp [Sla.create_correlation, Sla.create_correlation_json,
          bind, Except.bind, hst, hops]⟩
      | exn m2 =>
        exact ⟨"Failed to create correlation: " ++ m2,
          by simp [Sla.create_correlation, Sla.create_correlation_json,
            bind, Except.bind, hst, hops]⟩
    | ok os =>
      obtain ⟨e, he⟩ := h
      cases e with
      | failJson m2 =>
        exact ⟨m2, by simp [Sla.create_correlation, Sla.create_correlation_json,
          bind, Except.bind, hst, hops, he]⟩
      | exn m2 =>
        exact ⟨"Failed to create correlation: " ++ m2,
          by simp [Sla.create_correlation, Sla.create_correlation_json,
            bind, Except.bind, hst, hops, he]⟩

/-- A failing filter conversion makes `update_correlation` fail fatally with no
write issued. -/
theorem update_correlation_fails_of_filter_error (env : Sla.CorrEnv)
    (cur : Sla.CurrentCorrelation) (d : Option String) (ops : Option (List String))
    (fp : Sla.CorrFilterParam) (st : String) (cm : Bool)
    (h : ∃ e, Sla.convert_filter_parameter_to_json env fp = Except.error e) :
    ∃ m, Sla.update_correlation env cur d ops (some fp) st cm = (Outcome.failed m, []) := by
  cases hst : Zbx.helper_to_numeric_value Sla.status_values st with
  | none =>
    exact ⟨"ValueError: status is not in list", by simp [Sla.update_correlation, hst]⟩
  | some sj =>
    cases ops with
    | none =>
      obtain ⟨e, he⟩ := h
      cases e with
      | failJson m2 =>
        exact ⟨m2, by simp [Sla.update_correlation, Sla.update_correlation_json,
          bind, Except.bind, hst, he]⟩
      | exn m2 =>
        exact ⟨"Failed to update correlation: " ++ m2,
          by simp [Sla.update_correlation, Sla.update_correlation_json,
            bind, Except.bind, hst, he]⟩
    | some opsl =>
      cases hops : Sla.convert_operations_to_json opsl with
      | error e2 =>
        cases e2 with
        | failJson m2 =>
          exact ⟨m2, by simp [Sla.update_correlation, Sla.update_correlation_json,
            bind, Except.bind, hst, hops]⟩
        | exn m2 =>
          exact ⟨"Failed to update correlation: " ++ m2,
            by simp [Sla.update_correlation, Sla.update_correlation_json,
              bind, Except.bind, hst, hops]⟩
      | ok os =>
        obtain ⟨e, he⟩ := h
        cases e with
        | failJson m2 =>
          exact ⟨m2, by simp [Sla.update_correlation, Sla.update_correlation_json,
            bind, Except.bind, hst, hops, he]⟩
        | exn m2 =>
          exact ⟨"Failed to update correlation: " ++ m2,
            by simp [Sla.update_correlation, Sla.update_correlation_json,
              bind, Except.bind, hst, hops, he]⟩

/-- **C9.**  A condition of type `new_event_host_group` combined with a
like-style operator — `like`, `not_like`, or the spec's `contains` (which is
not even in the module's operator table) — makes both the create and the
update path of the correlation adaptor fail fatally before any remote create
or update call is made. -/
theorem c9_hostgroup_like_operator_rejected (env : Sla.CorrEnv)
    (c : Sla.CorrCondition) (fp : Sla.CorrFilterParam) (nm : String)
    (d : Option String) (ops : List String) (st : String) (cm : Bool)
    (hmem : c ∈ fp.conditions)
    (htype : c.type_ = "new_event_host_group")
    (hop : c.operator = some "like" ∨ c.operator = some "not_like" ∨
           c.operator = some "contains") :
    (∃ m, Sla.create_correlation env nm d ops fp st cm = (Outcome.failed m, [])) ∧
    (∀ cur : Sla.CurrentCorrelation,
      ∃ m, Sla.update_correlation env cur d (some ops) (some fp) st cm
        = (Outcome.failed m, [])) := by
  have hfilter : ∃ e, Sla.convert_filter_parameter_to_json env fp = Except.error e :=
    convert_filter_error env fp
      (convert_conditions_list_error env fp.evaltype c
        (convert_condition_error_of_operator env fp.evaltype c
          (condition_operator_rejects c htype hop))
        fp.conditions hmem)
  exact ⟨create_correlation_fails_of_filter_error env nm d ops fp st cm hfilter,
    fun cur => update_correlation_fails_of_filter_error env cur d (some ops) fp st cm hfilter⟩

/-- Closed instance of the rejection theorem at the concrete
`new_event_host_group`/`like` condition. -/
theorem c9_hostgroup_like_operator_rejected_witness :
    exHostGroupLikeCond ∈ exHostGroupLikeFilter.conditions ∧
    exHostGroupLikeCond.type_ = "new_event_host_group" ∧
    exHostGroupLikeCond.operator = some "like" ∧
    (∃ m, Sla.create_correlation exCorrEnv "corr1" none ["close_old_events"]
        exHostGroupLikeFilter "enabled" false = (Outcome.failed m, [])) :=
  ⟨by decide, rfl, rfl,
   (c9_hostgroup_like_operator_rejected exCorrEnv exHostGroupLikeCond
      exHostGroupLikeFilter "corr1" none ["close_old_events"] "enabled" false
      (by decide) rfl (Or.inl rfl)).1⟩

end Zbx
